import Mathlib

/-!
Shallow embedding of `spawn_new_instance` from `src/src-tauri/src/lib.rs`
(repository yutotnh/yutodo).

The Rust function reads ambient OS state only: the path of the currently
running executable (`std::env::current_exe()`) and the outcome of one
process-creation call (`Command::spawn()`).  We make that ambient state an
explicit parameter (`OSEnv`), and make the compile-time `#[cfg(target_os)]`
branch an explicit `TargetOs` parameter.  The function's `Result<String,
String>` becomes `Except String String`.  To let us talk about which spawn
calls the code issues (and how many), the embedding also returns the list of
`Command` values on which `.spawn()` was invoked, in order.
-/

/-- The compile-time target platform selected by `#[cfg(target_os = ...)]`.
`other` is any platform outside the three handled families
(`#[cfg(not(any(target_os = "windows", target_os = "macos", target_os = "linux")))]`). -/
inductive TargetOs where
  | windows
  | macos
  | linux
  | other
deriving DecidableEq, Repr

/-- A process-creation request, mirroring the parts of `std::process::Command`
this code uses: the program, the argument list built by `.arg(...)` calls, the
Windows `creation_flags` (if set), and any environment overrides (the code
never sets any, so this list records that none are forwarded). -/
structure Command where
  program : String
  args : List String
  creation_flags : Option Nat
  env_overrides : List (String × String)
deriving DecidableEq, Repr

/-- `Command::new(program)`: a command with no arguments, no creation flags
and no environment overrides. -/
def Command.new (program : String) : Command :=
  ⟨program, [], none, []⟩

/-- `.arg(a)`: append one argument. -/
def Command.arg (c : Command) (a : String) : Command :=
  ⟨c.program, c.args ++ [a], c.creation_flags, c.env_overrides⟩

/-- `.creation_flags(f)` (Windows `CommandExt`). -/
def Command.creationFlags (c : Command) (f : Nat) : Command :=
  ⟨c.program, c.args, some f, c.env_overrides⟩

/-- The ambient OS state observed during one invocation:
`current_exe` is what `std::env::current_exe()` returns (`Ok` path, or `Err`
with its display text); `spawn` is what `.spawn()` returns for a given
command (`Ok child` gives `child.id()`, `Err e` gives the error's display
text); `appInstanceId` is the OS identifier of the application instance that
a launcher utility (such as macOS `open`) itself creates later — it is part
of the ambient OS, and the code never observes it. -/
structure OSEnv where
  current_exe : Except String String
  spawn : Command → Except String Nat
  appInstanceId : Command → Nat

/-- The command built and spawned by the macOS branch:
`Command::new("open").arg("-n").arg("-a").arg(&current_exe)`. -/
def macosOpenCommand (exe : String) : Command :=
  ((Command.new "open").arg "-n" |>.arg "-a").arg exe

/-- The command built and spawned by the Windows branch:
`Command::new(&current_exe).creation_flags(0x00000010)` (CREATE_NEW_CONSOLE). -/
def windowsCommand (exe : String) : Command :=
  (Command.new exe).creationFlags 0x00000010

/-- The command built and spawned by the Linux branch:
`Command::new(&current_exe)`. -/
def linuxCommand (exe : String) : Command :=
  Command.new exe

/-- Shallow embedding of `spawn_new_instance` (`src/src-tauri/src/lib.rs`,
lines 16–86).  Returns the function's `Result<String, String>` together with
the list of commands on which `.spawn()` was called during the invocation.
The `println!`/`eprintln!` logging of the source has no bearing on the result
and is not modelled. -/
def spawn_new_instance (os : TargetOs) (env : OSEnv) :
    Except String String × List Command :=
  match env.current_exe with
  | .error e => (.error ("Failed to get current executable path: " ++ e), [])
  | .ok current_exe =>
    match os with
    | .windows =>
      let cmd := windowsCommand current_exe
      match env.spawn cmd with
      | .ok pid => (.ok ("New process spawned with PID: " ++ toString pid), [cmd])
      | .error e => (.error ("Failed to spawn new process: " ++ e), [cmd])
    | .macos =>
      let cmd := macosOpenCommand current_exe
      match env.spawn cmd with
      | .ok pid => (.ok ("New process spawned with PID: " ++ toString pid), [cmd])
      | .error e => (.error ("Failed to spawn new process: " ++ e), [cmd])
    | .linux =>
      let cmd := linuxCommand current_exe
      match env.spawn cmd with
      | .ok pid => (.ok ("New process spawned with PID: " ++ toString pid), [cmd])
      | .error e => (.error ("Failed to spawn new process: " ++ e), [cmd])
    | .other =>
      (.error "Unsupported platform", [])

/-! ### Equation helper lemmas -/

/-- If `std::env::current_exe()` fails, every platform returns the
path-resolution failure immediately and spawns nothing. -/
theorem resolution_failed_eq (os : TargetOs) (env : OSEnv) (d : String)
    (hexe : env.current_exe = Except.error d) :
    spawn_new_instance os env =
      (Except.error ("Failed to get current executable path: " ++ d), []) := by
  cases os <;> simp [spawn_new_instance, hexe]

/-- Unsupported platform with a resolved path: the static failure branch. -/
theorem unsupported_eq (env : OSEnv) (exe : String)
    (hexe : env.current_exe = Except.ok exe) :
    spawn_new_instance TargetOs.other env =
      (Except.error "Unsupported platform", []) := by
  simp [spawn_new_instance, hexe]

/-- Windows branch, spawn succeeded. -/
theorem windows_ok_eq (env : OSEnv) (exe : String) (pid : Nat)
    (hexe : env.current_exe = Except.ok exe)
    (h : env.spawn (windowsCommand exe) = Except.ok pid) :
    spawn_new_instance TargetOs.windows env =
      (Except.ok ("New process spawned with PID: " ++ toString pid),
       [windowsCommand exe]) := by
  simp [spawn_new_instance, hexe, h]

/-- Windows branch, spawn failed. -/
theorem windows_err_eq (env : OSEnv) (exe : String) (e : String)
    (hexe : env.current_exe = Except.ok exe)
    (h : env.spawn (windowsCommand exe) = Except.error e) :
    spawn_new_instance TargetOs.windows env =
      (Except.error ("Failed to spawn new process: " ++ e),
       [windowsCommand exe]) := by
  simp [spawn_new_instance, hexe, h]

/-- macOS branch, spawn succeeded. -/
theorem macos_ok_eq (env : OSEnv) (exe : String) (pid : Nat)
    (hexe : env.current_exe = Except.ok exe)
    (h : env.spawn (macosOpenCommand exe) = Except.ok pid) :
    spawn_new_instance TargetOs.macos env =
      (Except.ok ("New process spawned with PID: " ++ toString pid),
       [macosOpenCommand exe]) := by
  simp [spawn_new_instance, hexe, h]

/-- macOS branch, spawn failed. -/
theorem macos_err_eq (env : OSEnv) (exe : String) (e : String)
    (hexe : env.current_exe = Except.ok exe)
    (h : env.spawn (macosOpenCommand exe) = Except.error e) :
    spawn_new_instance TargetOs.macos env =
      (Except.error ("Failed to spawn new process: " ++ e),
       [macosOpenCommand exe]) := by
  simp [spawn_new_instance, hexe, h]

/-- Linux branch, spawn succeeded. -/
theorem linux_ok_eq (env : OSEnv) (exe : String) (pid : Nat)
    (hexe : env.current_exe = Except.ok exe)
    (h : env.spawn (linuxCommand exe) = Except.ok pid) :
    spawn_new_instance TargetOs.linux env =
      (Except.ok ("New process spawned with PID: " ++ toString pid),
       [linuxCommand exe]) := by
  simp [spawn_new_instance, hexe, h]

/-- Linux branch, spawn failed. -/
theorem linux_err_eq (env : OSEnv) (exe : String) (e : String)
    (hexe : env.current_exe = Except.ok exe)
    (h : env.spawn (linuxCommand exe) = Except.error e) :
    spawn_new_instance TargetOs.linux env =
      (Except.error ("Failed to spawn new process: " ++ e),
       [linuxCommand exe]) := by
  simp [spawn_new_instance, hexe, h]

/-- The trace of spawn calls on a supported platform with a resolved path is
one command, independent of the spawn outcome. -/
theorem trace_eq (env : OSEnv) (exe : String)
    (hexe : env.current_exe = Except.ok exe) :
    (spawn_new_instance TargetOs.windows env).2 = [windowsCommand exe] ∧
    (spawn_new_instance TargetOs.macos env).2 = [macosOpenCommand exe] ∧
    (spawn_new_instance TargetOs.linux env).2 = [linuxCommand exe] := by
  refine ⟨?_, ?_, ?_⟩
  · cases h : env.spawn (windowsCommand exe) with
    | ok pid => rw [windows_ok_eq env exe pid hexe h]
    | error e => rw [windows_err_eq env exe e hexe h]
  · cases h : env.spawn (macosOpenCommand exe) with
    | ok pid => rw [macos_ok_eq env exe pid hexe h]
    | error e => rw [macos_err_eq env exe e hexe h]
  · cases h : env.spawn (linuxCommand exe) with
    | ok pid => rw [linux_ok_eq env exe pid hexe h]
    | error e => rw [linux_err_eq env exe e hexe h]

/-- A string with a non-empty left part is non-empty. -/
theorem left_part_ne_empty (a b : String) (h : a.length ≠ 0) : a ++ b ≠ "" := by
  intro he
  have h2 := congrArg String.length he
  rw [String.length_append, String.length_empty] at h2
  omega

/-! ### Claims -/

/-- Claim C1: on a supported platform, when the executable path resolves and
the OS spawn call succeeds returning a child with identifier `pid`, the result
is the success variant with message exactly
`"New process spawned with PID: "` followed by `pid`. -/
theorem claim_C1 (os : TargetOs) (env : OSEnv) (exe : String) (pid : Nat)
    (hos : os ≠ TargetOs.other)
    (hexe : env.current_exe = Except.ok exe)
    (hspawn : ∀ cmd ∈ (spawn_new_instance os env).2, env.spawn cmd = Except.ok pid) :
    (spawn_new_instance os env).1 =
      Except.ok ("New process spawned with PID: " ++ toString pid) := by
  cases os with
  | other => exact absurd rfl hos
  | windows =>
    have h := hspawn (windowsCommand exe) (by rw [(trace_eq env exe hexe).1]; simp)
    rw [windows_ok_eq env exe pid hexe h]
  | macos =>
    have h := hspawn (macosOpenCommand exe) (by rw [(trace_eq env exe hexe).2.1]; simp)
    rw [macos_ok_eq env exe pid hexe h]
  | linux =>
    have h := hspawn (linuxCommand exe) (by rw [(trace_eq env exe hexe).2.2]; simp)
    rw [linux_ok_eq env exe pid hexe h]

/-- Witness for C1: Linux-like platform, path `/opt/app/bin`, spawn succeeds
with identifier 4821; the message is `"New process spawned with PID: 4821"`. -/
theorem claim_C1_witness :
    (spawn_new_instance TargetOs.linux
      ⟨Except.ok "/opt/app/bin", fun _ => Except.ok 4821, fun _ => 0⟩).1 =
      Except.ok "New process spawned with PID: 4821" := by
  exact claim_C1 TargetOs.linux
    ⟨Except.ok "/opt/app/bin", fun _ => Except.ok 4821, fun _ => 0⟩
    "/opt/app/bin" 4821 (by decide) rfl (fun cmd _ => rfl)

/-- Claim C2: when executable-path resolution fails with diagnostic `d`, the
result is the failure variant with message exactly
`"Failed to get current executable path: "` followed by `d`, and no spawn call
is attempted (the spawn trace is empty), on every platform. -/
theorem claim_C2 (os : TargetOs) (env : OSEnv) (d : String)
    (hexe : env.current_exe = Except.error d) :
    spawn_new_instance os env =
      (Except.error ("Failed to get current executable path: " ++ d), []) :=
  resolution_failed_eq os env d hexe

/-- Witness for C2: diagnostic `"permission denied"` on the Linux-like
platform yields the failure
`"Failed to get current executable path: permission denied"` and an empty
spawn trace. -/
theorem claim_C2_witness :
    spawn_new_instance TargetOs.linux
      ⟨Except.error "permission denied", fun _ => Except.ok 4821, fun _ => 0⟩ =
      (Except.error "Failed to get current executable path: permission denied",
       []) := by
  exact claim_C2 TargetOs.linux
    ⟨Except.error "permission denied", fun _ => Except.ok 4821, fun _ => 0⟩
    "permission denied" rfl

/-- Counterexample to C3 as stated: on the unsupported platform, when
executable-path resolution itself fails, the result's message is the
path-resolution failure, not `"Unsupported platform"` — so not every
invocation on the unsupported platform produces the message
`"Unsupported platform"`. -/
theorem claim_C3_counterexample :
    (spawn_new_instance TargetOs.other
      ⟨Except.error "permission denied", fun _ => Except.error "unused",
       fun _ => 0⟩).1 =
      Except.error "Failed to get current executable path: permission denied" ∧
    ("Failed to get current executable path: permission denied" : String) ≠
      "Unsupported platform" := by
  exact ⟨rfl, by decide⟩

/-- Claim C3 (amended): on a platform outside the Windows-like, macOS-like
and Linux-like families, when executable-path resolution succeeds, the result
is deterministically the failure variant with message exactly
`"Unsupported platform"`, and zero OS spawn calls are made (the spawn trace
is empty; by `claim_C2` the trace is also empty when resolution fails). -/
theorem claim_C3 (env : OSEnv) (exe : String)
    (hexe : env.current_exe = Except.ok exe) :
    spawn_new_instance TargetOs.other env =
      (Except.error "Unsupported platform", []) :=
  unsupported_eq env exe hexe

/-- Witness for C3: a resolved path on the unsupported platform yields the
failure `"Unsupported platform"` and an empty spawn trace. -/
theorem claim_C3_witness :
    spawn_new_instance TargetOs.other
      ⟨Except.ok "/opt/app/bin", fun _ => Except.ok 4821, fun _ => 0⟩ =
      (Except.error "Unsupported platform", []) := by
  exact claim_C3
    ⟨Except.ok "/opt/app/bin", fun _ => Except.ok 4821, fun _ => 0⟩
    "/opt/app/bin" rfl

/-- Claim C4: under every outcome of the ambient OS calls (path resolution
succeeding or failing, spawn succeeding or failing, any platform),
`spawn_new_instance` returns a value of the success-or-failure result type:
it is total, and its result is always either the `ok` variant or the `error`
variant. -/
theorem claim_C4 (os : TargetOs) (env : OSEnv) :
    (∃ m, (spawn_new_instance os env).1 = Except.ok m) ∨
    (∃ m, (spawn_new_instance os env).1 = Except.error m) := by
  cases h : (spawn_new_instance os env).1 with
  | ok m => exact Or.inl ⟨m, rfl⟩
  | error m => exact Or.inr ⟨m, rfl⟩

/-- Claim C5: on a supported platform with a resolved path, when the OS
rejects the process-creation call with diagnostic `d`, the result is the
failure variant with message `"Failed to spawn new process: "` followed by
`d` (which includes `d`), and exactly one spawn attempt is made in the call,
with no retry. -/
theorem claim_C5 (os : TargetOs) (env : OSEnv) (exe d : String)
    (hos : os ≠ TargetOs.other)
    (hexe : env.current_exe = Except.ok exe)
    (hspawn : ∀ cmd ∈ (spawn_new_instance os env).2,
      env.spawn cmd = Except.error d) :
    (spawn_new_instance os env).1 =
      Except.error ("Failed to spawn new process: " ++ d) ∧
    (spawn_new_instance os env).2.length = 1 := by
  cases os with
  | other => exact absurd rfl hos
  | windows =>
    have h := hspawn (windowsCommand exe) (by rw [(trace_eq env exe hexe).1]; simp)
    rw [windows_err_eq env exe d hexe h]
    exact ⟨rfl, rfl⟩
  | macos =>
    have h := hspawn (macosOpenCommand exe) (by rw [(trace_eq env exe hexe).2.1]; simp)
    rw [macos_err_eq env exe d hexe h]
    exact ⟨rfl, rfl⟩
  | linux =>
    have h := hspawn (linuxCommand exe) (by rw [(trace_eq env exe hexe).2.2]; simp)
    rw [linux_err_eq env exe d hexe h]
    exact ⟨rfl, rfl⟩

/-- Witness for C5: diagnostic `"No such file"` on the Linux-like platform
yields `"Failed to spawn new process: No such file"` after exactly one spawn
attempt. -/
theorem claim_C5_witness :
    (spawn_new_instance TargetOs.linux
      ⟨Except.ok "/opt/app/bin", fun _ => Except.error "No such file",
       fun _ => 0⟩).1 =
      Except.error "Failed to spawn new process: No such file" ∧
    (spawn_new_instance TargetOs.linux
      ⟨Except.ok "/opt/app/bin", fun _ => Except.error "No such file",
       fun _ => 0⟩).2.length = 1 := by
  exact claim_C5 TargetOs.linux
    ⟨Except.ok "/opt/app/bin", fun _ => Except.error "No such file", fun _ => 0⟩
    "/opt/app/bin" "No such file" (by decide) rfl (fun cmd _ => rfl)

/-- Claim C6: every value returned by `spawn_new_instance` satisfies the
outcome invariant — a success result carries a non-empty message that
references the new process's identifier (it is exactly the format string
applied to the identifier returned by the one spawn call in the trace), and
a failure result carries a non-empty diagnostic message. -/
theorem claim_C6 (os : TargetOs) (env : OSEnv) (m : String) :
    ((spawn_new_instance os env).1 = Except.ok m →
      m ≠ "" ∧ ∃ cmd ∈ (spawn_new_instance os env).2, ∃ pid,
        env.spawn cmd = Except.ok pid ∧
        m = "New process spawned with PID: " ++ toString pid) ∧
    ((spawn_new_instance os env).1 = Except.error m → m ≠ "") := by
  cases hc : env.current_exe with
  | error d =>
    rw [resolution_failed_eq os env d hc]
    refine ⟨fun h => absurd h (by simp), fun h => ?_⟩
    simp only [Except.error.injEq] at h
    subst h
    exact left_part_ne_empty _ _ (by decide)
  | ok exe =>
    cases os with
    | other =>
      rw [unsupported_eq env exe hc]
      refine ⟨fun h => absurd h (by simp), fun h => ?_⟩
      simp only [Except.error.injEq] at h
      subst h
      decide
    | windows =>
      cases hs : env.spawn (windowsCommand exe) with
      | ok pid =>
        rw [windows_ok_eq env exe pid hc hs]
        refine ⟨fun h => ?_, fun h => absurd h (by simp)⟩
        simp only [Except.ok.injEq] at h
        subst h
        exact ⟨left_part_ne_empty _ _ (by decide),
          windowsCommand exe, by simp, pid, hs, rfl⟩
      | error e =>
        rw [windows_err_eq env exe e hc hs]
        refine ⟨fun h => absurd h (by simp), fun h => ?_⟩
        simp only [Except.error.injEq] at h
        subst h
        exact left_part_ne_empty _ _ (by decide)
    | macos =>
      cases hs : env.spawn (macosOpenCommand exe) with
      | ok pid =>
        rw [macos_ok_eq env exe pid hc hs]
        refine ⟨fun h => ?_, fun h => absurd h (by simp)⟩
        simp only [Except.ok.injEq] at h
        subst h
        exact ⟨left_part_ne_empty _ _ (by decide),
          macosOpenCommand exe, by simp, pid, hs, rfl⟩
      | error e =>
        rw [macos_err_eq env exe e hc hs]
        refine ⟨fun h => absurd h (by simp), fun h => ?_⟩
        simp only [Except.error.injEq] at h
        subst h
        exact left_part_ne_empty _ _ (by decide)
    | linux =>
      cases hs : env.spawn (linuxCommand exe) with
      | ok pid =>
        rw [linux_ok_eq env exe pid hc hs]
        refine ⟨fun h => ?_, fun h => absurd h (by simp)⟩
        simp only [Except.ok.injEq] at h
        subst h
        exact ⟨left_part_ne_empty _ _ (by decide),
          linuxCommand exe, by simp, pid, hs, rfl⟩
      | error e =>
        rw [linux_err_eq env exe e hc hs]
        refine ⟨fun h => absurd h (by simp), fun h => ?_⟩
        simp only [Except.error.injEq] at h
        subst h
        exact left_part_ne_empty _ _ (by decide)

/-- Witness for C6: a concrete successful outcome has a non-empty message. -/
theorem claim_C6_witness :
    ("New process spawned with PID: 7" : String) ≠ "" := by
  exact ((claim_C6 TargetOs.linux
    ⟨Except.ok "/bin/app", fun _ => Except.ok 7, fun _ => 0⟩
    "New process spawned with PID: 7").1 rfl).1

/-- Claim C7: on the macOS-like platform with a resolved path `p`, the one
spawn request issued is the generic `open` launcher utility carrying the
new-instance flag `-n` and the application-target flag `-a` with `p` as the
target argument — the program run is `"open"`, not `p` directly. -/
theorem claim_C7 (env : OSEnv) (p : String)
    (hexe : env.current_exe = Except.ok p) :
    (spawn_new_instance TargetOs.macos env).2 = [macosOpenCommand p] ∧
    macosOpenCommand p = ⟨"open", ["-n", "-a", p], none, []⟩ :=
  ⟨(trace_eq env p hexe).2.1, rfl⟩

/-- Witness for C7: with path `/Applications/App.app/Contents/MacOS/app` the
issued command is `open -n -a /Applications/App.app/Contents/MacOS/app`. -/
theorem claim_C7_witness :
    (spawn_new_instance TargetOs.macos
      ⟨Except.ok "/Applications/App.app/Contents/MacOS/app",
       fun _ => Except.ok 591, fun _ => 0⟩).2 =
      [⟨"open", ["-n", "-a", "/Applications/App.app/Contents/MacOS/app"],
        none, []⟩] := by
  have h := claim_C7
    ⟨Except.ok "/Applications/App.app/Contents/MacOS/app",
     fun _ => Except.ok 591, fun _ => 0⟩
    "/Applications/App.app/Contents/MacOS/app" rfl
  rw [h.1, h.2]

/-- Claim C8: on the macOS-like platform, when the path resolves and the
launcher utility's spawn succeeds with identifier `i`, the result is the
success variant with message exactly `"New process spawned with PID: "`
followed by `i`. -/
theorem claim_C8 (env : OSEnv) (p : String) (i : Nat)
    (hexe : env.current_exe = Except.ok p)
    (hspawn : env.spawn (macosOpenCommand p) = Except.ok i) :
    (spawn_new_instance TargetOs.macos env).1 =
      Except.ok ("New process spawned with PID: " ++ toString i) := by
  rw [macos_ok_eq env p i hexe hspawn]

/-- Witness for C8: spawned identifier 591 yields the message
`"New process spawned with PID: 591"`. -/
theorem claim_C8_witness :
    (spawn_new_instance TargetOs.macos
      ⟨Except.ok "/Applications/App.app/Contents/MacOS/app",
       fun _ => Except.ok 591, fun _ => 0⟩).1 =
      Except.ok "New process spawned with PID: 591" := by
  exact claim_C8
    ⟨Except.ok "/Applications/App.app/Contents/MacOS/app",
     fun _ => Except.ok 591, fun _ => 0⟩
    "/Applications/App.app/Contents/MacOS/app" 591 rfl rfl

/-- Claim C9: on the Windows-like and Linux-like platforms with resolved path
`p`, every spawned command is built from exactly `p` with an empty argument
list and no environment overrides. -/
theorem claim_C9 (os : TargetOs) (env : OSEnv) (p : String)
    (hos : os = TargetOs.windows ∨ os = TargetOs.linux)
    (hexe : env.current_exe = Except.ok p) :
    ∀ cmd ∈ (spawn_new_instance os env).2,
      cmd.program = p ∧ cmd.args = [] ∧ cmd.env_overrides = [] := by
  intro cmd hcmd
  cases hos with
  | inl h =>
    subst h
    rw [(trace_eq env p hexe).1] at hcmd
    simp only [List.mem_singleton] at hcmd
    subst hcmd
    exact ⟨rfl, rfl, rfl⟩
  | inr h =>
    subst h
    rw [(trace_eq env p hexe).2.2] at hcmd
    simp only [List.mem_singleton] at hcmd
    subst hcmd
    exact ⟨rfl, rfl, rfl⟩

/-- Witness for C9: on Linux with path `/opt/app/bin`, the one spawned
command has program `/opt/app/bin`, no arguments and no environment
overrides. -/
theorem claim_C9_witness :
    (linuxCommand "/opt/app/bin").program = "/opt/app/bin" ∧
    (linuxCommand "/opt/app/bin").args = [] ∧
    (linuxCommand "/opt/app/bin").env_overrides = [] := by
  exact claim_C9 TargetOs.linux
    ⟨Except.ok "/opt/app/bin", fun _ => Except.ok 4821, fun _ => 0⟩
    "/opt/app/bin" (Or.inr rfl) rfl (linuxCommand "/opt/app/bin") (by
      rw [(trace_eq
        ⟨Except.ok "/opt/app/bin", fun _ => Except.ok 4821, fun _ => 0⟩
        "/opt/app/bin" rfl).2.2]
      simp)

/-- Claim C10: on the macOS-like platform, the identifier embedded in the
success message is the identifier `i` returned by the OS for the spawn of
the `open` launcher-utility command (`child.id()` of the `open` command);
the outcome is entirely independent of the identifier the launcher later
assigns to the application instance it creates (`appInstanceId`), so the
message cannot reference that instance's identifier. -/
theorem claim_C10 (cur : Except String String) (sp : Command → Except String Nat)
    (appId appId2 : Command → Nat) (p : String) (i : Nat)
    (hexe : cur = Except.ok p)
    (hspawn : sp (macosOpenCommand p) = Except.ok i) :
    (spawn_new_instance TargetOs.macos ⟨cur, sp, appId⟩).1 =
      Except.ok ("New process spawned with PID: " ++ toString i) ∧
    spawn_new_instance TargetOs.macos ⟨cur, sp, appId⟩ =
      spawn_new_instance TargetOs.macos ⟨cur, sp, appId2⟩ := by
  subst hexe
  exact ⟨by rw [macos_ok_eq ⟨Except.ok p, sp, appId⟩ p i rfl hspawn], rfl⟩

/-- Witness for C10: the `open` helper is spawned with identifier 591 while
the launcher later creates the application instance with identifier 1000;
the message reports 591, and changing the instance identifier to 2000 leaves
the outcome unchanged. -/
theorem claim_C10_witness :
    (spawn_new_instance TargetOs.macos
      ⟨Except.ok "/Applications/App.app/Contents/MacOS/app",
       fun _ => Except.ok 591, fun _ => 1000⟩).1 =
      Except.ok "New process spawned with PID: 591" ∧
    spawn_new_instance TargetOs.macos
      ⟨Except.ok "/Applications/App.app/Contents/MacOS/app",
       fun _ => Except.ok 591, fun _ => 1000⟩ =
    spawn_new_instance TargetOs.macos
      ⟨Except.ok "/Applications/App.app/Contents/MacOS/app",
       fun _ => Except.ok 591, fun _ => 2000⟩ := by
  exact claim_C10 (Except.ok "/Applications/App.app/Contents/MacOS/app")
    (fun _ => Except.ok 591) (fun _ => 1000) (fun _ => 2000)
    "/Applications/App.app/Contents/MacOS/app" 591 rfl rfl
